import Mathlib

/-!
Verification of the generation pipeline of `pkg/cmd/experimental/generate/generate.go`
(openshift-origin, experimental `generate` command).

The Go file under verification wires a resolver chain (`newImageResolver`),
source-reference generation (`generateSourceRef`), build-strategy dispatch
(`generateBuildStrategyRef`) and the end-to-end `generateApp` driver.  Code of
the same repository that `generate.go` calls but that is not part of the file
(packages `pkg/generate/app`, `pkg/generate/generator`, `pkg/generate/source`)
is modelled from the specification; every such definition carries a doc comment
starting with `Modelled from the spec:`.  External collaborators (filesystem,
docker daemon, cluster API, registry, codec) are parameters of the embedding.
-/

namespace Generate

/-- Go struct `docker.Config` — only the field the command touches: the exposed-port set
(`map[string]struct{}`), modelled as the list of its keys. -/
structure DockerConfig where
  exposedPorts : List String
deriving DecidableEq, Repr

/-- Go struct `docker.Image` metadata (`ImageRef.Info` in Go is `*docker.Image`); the
`Config` field is itself a nullable pointer. -/
structure ImageInfo where
  config : Option DockerConfig
deriving DecidableEq, Repr

/-- Go struct `genapp.ImageRef`: a concrete, resolved container image reference.  `info`
models the nullable `Info *docker.Image` pointer. -/
structure ImageRef where
  name : String
  nspace : String
  registry : String
  tag : String
  info : Option ImageInfo
deriving DecidableEq, Repr

/-- Go struct `genapp.SourceRef`: normalized descriptor of a source repository. -/
structure SourceRef where
  name : String
  url : String
  ref : String
  contextDir : String
deriving DecidableEq, Repr

/-- The two build-strategy kinds the command can produce: a container-native
(Docker) build or a builder-image (STI) build. -/
inductive StrategyKind where
  | docker
  | sti
deriving DecidableEq, Repr

/-- Go struct `genapp.BuildStrategyRef`: chosen strategy kind, base image (`Base` is a
nullable pointer in Go, hence `Option`) and the Docker context path. -/
structure BuildStrategyRef where
  kind : StrategyKind
  base : Option ImageRef
  contextDir : String
deriving DecidableEq, Repr

/-- Error taxonomy of the pipeline (spec §7). -/
inductive GenError where
  | sourceDetection (msg : String)
  | noStrategyMatch
  | resolution (name : String)
  | pipelineConsistency (msg : String)
  | validation (msg : String)
  | encoding (msg : String)
  | other (msg : String)
deriving DecidableEq, Repr

/-- Handle for a configured OpenShift client (`osclient.Interface`); the
embedding only needs its identity, backend behavior lives in `Backends`. -/
structure OsClient where
  id : Nat
deriving DecidableEq, Repr

/-- Handle for a configured docker client (`*docker.Client`). -/
structure DockerClient where
  id : Nat
deriving DecidableEq, Repr

/-- The three resolver variants `newImageResolver` can place in the chain:
`DockerClientResolver{Client}`, `ImageStreamResolver{Client, Images,
Namespaces}` and `DockerRegistryResolver`. -/
inductive ResolverKind where
  | dockerClient (client : DockerClient)
  | imageStream (client : OsClient) (namespaces : List String)
  | dockerRegistry
deriving DecidableEq, Repr

/-- Go struct `genapp.WeightedResolver`: a resolver together with its weight (the Go
field is a `float64`; the command only ever writes the literal `0.0`). -/
structure WeightedResolver where
  resolver : ResolverKind
  weight : Rat
deriving DecidableEq, Repr

/-- Function `newImageResolver` (generate.go:140-166): builds the
`PerfectMatchWeightedResolver` slice.  The docker resolver is appended when
`dockerClient != nil`, the image-stream resolver when `osClient != nil` (with
the namespace probe list built from the caller namespace plus `"default"`), and
the registry resolver is always appended last. -/
def newImageResolver (nspace : String) (osClient : Option OsClient)
    (dockerClient : Option DockerClient) : List WeightedResolver :=
  let resolver : List WeightedResolver := []
  let resolver :=
    match dockerClient with
    | some dc => resolver ++ [⟨ResolverKind.dockerClient dc, 0⟩]
    | none => resolver
  let resolver :=
    match osClient with
    | some oc =>
        let namespaces : List String := []
        let namespaces :=
          if 0 < nspace.length then namespaces ++ [nspace] else namespaces
        let namespaces := namespaces ++ ["default"]
        resolver ++ [⟨ResolverKind.imageStream oc namespaces, 0⟩]
    | none => resolver
  resolver ++ [⟨ResolverKind.dockerRegistry, 0⟩]

/-- Outcomes that `f.Clients`, `dockerHelper.GetClient` and
`f.DefaultNamespace` can produce inside the `Run` closure of `NewCmdGenerate`:
each returns a value together with an error flag. -/
structure FactoryEnv where
  clientsResult : Option OsClient × Bool
  dockerResult : Option DockerClient × Bool
  defaultNamespaceResult : String × Bool
deriving DecidableEq, Repr

/-- Client setup of the `Run` closure of `NewCmdGenerate` (generate.go:88-120)
up to the `newImageResolver` call.  Note the verbatim translation of
generate.go:92-95: when `dockerHelper.GetClient()` errors, the code assigns
`osClient = nil` (not `dockerClient = nil`). -/
def entryPointResolver (env : FactoryEnv) : List WeightedResolver :=
  let osClient := if env.clientsResult.2 then none else env.clientsResult.1
  let dockerClient := env.dockerResult.1
  let osClient := if env.dockerResult.2 then none else osClient
  let nspace :=
    if env.defaultNamespaceResult.2 then "" else env.defaultNamespaceResult.1
  newImageResolver nspace osClient dockerClient

/-- The namespace probe list of the first image-stream resolver in a chain, if
any. -/
def imageStreamNamespaces : List WeightedResolver → Option (List String)
  | [] => none
  | ⟨ResolverKind.imageStream _ nss, _⟩ :: _ => some nss
  | _ :: rest => imageStreamNamespaces rest

/-- Possible outcomes of a single backend lookup (spec §4.3): a successful
match, a reachable backend with no match (`ResolverNoMatchError`), or an
unreachable backend (`ResolverTransientError`). -/
inductive ResolveOutcome where
  | found (ref : ImageRef)
  | noMatch
  | transient
deriving DecidableEq, Repr

/-- Behavior of the three external backends (local docker store, cluster
image-stream lookup, remote registry) — external collaborators of the core
(spec §6), supplied as parameters. -/
structure Backends where
  dockerLookup : DockerClient → String → ResolveOutcome
  imageStreamLookup : OsClient → List String → String → ResolveOutcome
  registryLookup : String → ResolveOutcome

/-- Modelled from the spec: the `Resolver` capability of each backend variant
(`DockerClientResolver`, `ImageStreamResolver`, `DockerRegistryResolver` of
`pkg/generate/app`, not under src/) — each maps a symbolic image name to an
outcome by querying its backend. -/
def ResolverKind.resolveWith (b : Backends) : ResolverKind → String → ResolveOutcome
  | ResolverKind.dockerClient c => b.dockerLookup c
  | ResolverKind.imageStream c nss => b.imageStreamLookup c nss
  | ResolverKind.dockerRegistry => b.registryLookup

/-- Modelled from the spec: `PerfectMatchWeightedResolver.Resolve`
(`pkg/generate/app`, not under src/), §4.3: iterate resolvers in insertion
order; a transient error is treated as no match and iteration continues; the
first successful match is returned verbatim; weights are not consulted; an
exhausted chain fails with a resolution error. -/
def chainResolve (b : Backends) : List WeightedResolver → String → Except GenError ImageRef
  | [], name => Except.error (GenError.resolution name)
  | wr :: rest, name =>
      match wr.resolver.resolveWith b name with
      | ResolveOutcome.found ref => Except.ok ref
      | ResolveOutcome.noMatch => chainResolve b rest name
      | ResolveOutcome.transient => chainResolve b rest name

/-- Number of resolvers of the chain that are invoked while resolving `name`
(instrumentation of `chainResolve`: iteration stops at the first match). -/
def chainInvoked (b : Backends) : List WeightedResolver → String → Nat
  | [], _ => 0
  | wr :: rest, name =>
      match wr.resolver.resolveWith b name with
      | ResolveOutcome.found _ => 1
      | ResolveOutcome.noMatch => 1 + chainInvoked b rest name
      | ResolveOutcome.transient => 1 + chainInvoked b rest name

/-- Snapshot of what probing a source repository reveals to the detector chain
(spec §4.2): whether a container-native build file (Dockerfile) is present at
the source root, and the builder-image name supplied by the first matching
language-specific detector, if any. -/
structure SourceSnapshot where
  hasDockerfile : Bool
  languageBuilder : Option String
deriving DecidableEq, Repr

/-- Environment of the strategy generators: probing the source (external
filesystem / shallow-fetch access) and reading the base image named by a
container-native build file at a given context path. -/
structure StratEnv where
  snapshot : SourceSnapshot
  dockerBase : String → Option ImageRef

/-- Modelled from the spec: `FromSourceRefAndDockerContext`
(`pkg/generate/generator`, not under src/), §4.2: force the container-native
(Docker) strategy using the supplied context; detection is skipped entirely. -/
def fromSourceRefAndDockerContext (senv : StratEnv) (dockerContext : String) :
    Except GenError BuildStrategyRef :=
  Except.ok { kind := StrategyKind.docker, base := senv.dockerBase dockerContext,
              contextDir := dockerContext }

/-- Modelled from the spec: `FromSTIBuilderImage` (`pkg/generate/generator`,
not under src/), §4.2: force the builder-image (STI) strategy from the
resolved builder image. -/
def fromSTIBuilderImage (builderRef : ImageRef) : Except GenError BuildStrategyRef :=
  Except.ok { kind := StrategyKind.sti, base := some builderRef, contextDir := "" }

/-- Trace of a strategy-generation run: the names handed to the image resolver
chain, in call order, and how many times the detector chain was run. -/
structure STrace where
  resolverCalls : List String
  detectorRuns : Nat
deriving DecidableEq, Repr

/-- Modelled from the spec: `FromSourceRef` (`pkg/generate/generator`, not
under src/), §4.2: run the ordered detectors over a snapshot of the source; a
container-native build file always outranks any language-specific detector;
the first matching language detector supplies the builder-image name to
resolve; with no match the generation fails with `NoStrategyMatchError`.  The
trace records the single detector-chain run and any resolver call. -/
def fromSourceRef (senv : StratEnv) (srcRef : SourceRef)
    (resolver : String → Except GenError ImageRef) :
    Except GenError BuildStrategyRef × STrace :=
  if senv.snapshot.hasDockerfile then
    (Except.ok { kind := StrategyKind.docker, base := senv.dockerBase srcRef.contextDir,
                 contextDir := srcRef.contextDir }, ⟨[], 1⟩)
  else
    match senv.snapshot.languageBuilder with
    | some builderName =>
        match resolver builderName with
        | Except.error e => (Except.error e, ⟨[builderName], 1⟩)
        | Except.ok ref =>
            (Except.ok { kind := StrategyKind.sti, base := some ref, contextDir := "" },
             ⟨[builderName], 1⟩)
    | none => (Except.error GenError.noStrategyMatch, ⟨[], 1⟩)

/-- Modelled from the spec: `FromNameAndResolver` (`pkg/generate/generator`,
not under src/): resolve a symbolic image name through the image resolver
chain exactly once, with exactly that name. -/
def fromNameAndResolver (resolver : String → Except GenError ImageRef)
    (name : String) : Except GenError ImageRef :=
  resolver name

/-- Function `generateBuildStrategyRef` (generate.go:192-209): if a docker context is
supplied, force the Docker strategy from it; else if a builder image is
supplied, resolve it and force the STI strategy; else detect over the source.
The trace instruments resolver and detector-chain invocations. -/
def generateBuildStrategyRef (senv : StratEnv) (srcRef : SourceRef)
    (dockerContext : String) (builderImage : String)
    (resolver : String → Except GenError ImageRef) :
    Except GenError BuildStrategyRef × STrace :=
  if 0 < dockerContext.length then
    (fromSourceRefAndDockerContext senv dockerContext, ⟨[], 0⟩)
  else if 0 < builderImage.length then
    match fromNameAndResolver resolver builderImage with
    | Except.error e => (Except.error e, ⟨[builderImage], 0⟩)
    | Except.ok builderRef => (fromSTIBuilderImage builderRef, ⟨[builderImage], 0⟩)
  else
    fromSourceRef senv srcRef resolver

/-- Go struct `genapp.BuildPipeline` as assembled by `NewBuildPipeline` (spec §3):
source, strategy, the needs-deployment flag and the merged environment. -/
structure Pipeline where
  name : String
  source : SourceRef
  strategy : BuildStrategyRef
  needsDeploy : Bool
  env : List (String × String)
deriving DecidableEq, Repr

/-- A draft/final platform object, keyed for dedup by (kind, name). -/
structure KObject where
  kind : String
  name : String
deriving DecidableEq, Repr

/-- External collaborators of `generateApp`: source-reference construction
from a URL or directory (`gen.NewSourceRefGenerator`, backed by filesystem and
version-control access), pipeline assembly, deployment computation, object
emission, service synthesis and the wire codec — all outside generate.go. -/
structure GenEnv where
  fromGitURL : String → Except GenError SourceRef
  fromDirectory : String → Except GenError SourceRef
  newBuildPipeline : String → Option ImageRef → BuildStrategyRef → SourceRef →
    Except GenError Pipeline
  needsDeployment : Pipeline → List (String × String) → Except GenError Pipeline
  objects : Pipeline → Except GenError (List KObject)
  addServices : List KObject → List KObject
  encode : List KObject → Except GenError String

/-- The `params` struct of generate.go:68-77. -/
structure Params where
  name : String
  sourceDir : String
  sourceRef : String
  sourceURL : String
  dockerContext : String
  builderImage : String
  port : String
  env : List (String × String)

/-- Function `generateSourceRef` (generate.go:168-190): build a source reference from
the URL (when non-empty) or the directory, then apply the caller-supplied
`ref` and `name` overrides on top of the detected values. -/
def generateSourceRef (genv : GenEnv) (url : String) (dir : String)
    (ref : String) (name : String) : Except GenError SourceRef :=
  match (if 0 < url.length then genv.fromGitURL url else genv.fromDirectory dir) with
  | Except.error e => Except.error e
  | Except.ok result =>
      let result := if 0 < ref.length then { result with ref := ref } else result
      let result := if 0 < name.length then { result with name := name } else result
      Except.ok result

/-- The port-override assignment of generate.go:226-228,
`strategyRef.Base.Info.Config.ExposedPorts = map[string]struct{}{input.port: {}}`:
it dereferences `Base`, `Info` and `Config` without a guard, so it is
well-defined (`some`) only when all three are present; `none` models the nil
dereference (runtime panic). -/
def applyPortOverride (s : BuildStrategyRef) (port : String) :
    Option BuildStrategyRef :=
  match s.base with
  | none => none
  | some b =>
      match b.info with
      | none => none
      | some i =>
          match i.config with
          | none => none
          | some c =>
              some { s with base := some { b with info := some { i with
                       config := some { c with exposedPorts := [port] } } } }

/-- The stages of `generateApp`, in program order. -/
inductive Stage where
  | sourceStage
  | strategyStage
  | pipelineStage
  | deploymentStage
  | objectsStage
  | encodeStage
  | writeStage
deriving DecidableEq, Repr

/-- How a `generateApp` run ends: normal completion, an error returned to the
caller, or a nil-dereference panic (which is not an error return). -/
inductive Outcome where
  | ok
  | err (e : GenError)
  | panicked
deriving DecidableEq, Repr

/-- Observable result of a `generateApp` run: the outcome, the stages that
ran in order, the source reference and strategy reference as produced by their
generation stages, the arguments handed to `NewBuildPipeline`, the object list
handed to `AddServices`, what was written to the output writer, and the
strategy-generation trace. -/
structure AppResult where
  outcome : Outcome
  stages : List Stage
  sourceProduced : Option SourceRef
  strategyProduced : Option BuildStrategyRef
  pipelineArgs : Option (String × Option ImageRef × BuildStrategyRef × SourceRef)
  servicesInput : Option (List KObject)
  written : Option String
  strategyTrace : STrace
deriving DecidableEq, Repr

/-- Function `generateApp` (generate.go:211-254): source reference → build strategy →
port override → pipeline assembly → deployment computation → object emission →
service synthesis → encoding → single write of the encoded list.  Every stage
error is returned verbatim and aborts the run; the write happens only after
encoding succeeded. -/
def generateApp (genv : GenEnv) (senv : StratEnv) (input : Params)
    (resolver : String → Except GenError ImageRef) : AppResult :=
  match generateSourceRef genv input.sourceURL input.sourceDir
      input.sourceRef input.name with
  | Except.error e =>
      { outcome := Outcome.err e, stages := [Stage.sourceStage],
        sourceProduced := none, strategyProduced := none, pipelineArgs := none,
        servicesInput := none, written := none, strategyTrace := ⟨[], 0⟩ }
  | Except.ok srcRef =>
      let tr := (generateBuildStrategyRef senv srcRef input.dockerContext
          input.builderImage resolver).2
      match (generateBuildStrategyRef senv srcRef input.dockerContext
          input.builderImage resolver).1 with
      | Except.error e =>
          { outcome := Outcome.err e, stages := [Stage.sourceStage, Stage.strategyStage],
            sourceProduced := some srcRef, strategyProduced := none,
            pipelineArgs := none, servicesInput := none, written := none,
            strategyTrace := tr }
      | Except.ok strategyRef =>
          match (if 0 < input.port.length then applyPortOverride strategyRef input.port
                 else some strategyRef) with
          | none =>
              { outcome := Outcome.panicked,
                stages := [Stage.sourceStage, Stage.strategyStage],
                sourceProduced := some srcRef, strategyProduced := some strategyRef,
                pipelineArgs := none, servicesInput := none, written := none,
                strategyTrace := tr }
          | some strategyRef' =>
              match genv.newBuildPipeline srcRef.name strategyRef'.base
                  strategyRef' srcRef with
              | Except.error e =>
                  { outcome := Outcome.err e,
                    stages := [Stage.sourceStage, Stage.strategyStage, Stage.pipelineStage],
                    sourceProduced := some srcRef, strategyProduced := some strategyRef,
                    pipelineArgs := some (srcRef.name, strategyRef'.base, strategyRef', srcRef),
                    servicesInput := none, written := none, strategyTrace := tr }
              | Except.ok pipeline =>
                  let env : List (String × String) := input.env
                  match genv.needsDeployment pipeline env with
                  | Except.error e =>
                      { outcome := Outcome.err e,
                        stages := [Stage.sourceStage, Stage.strategyStage,
                                   Stage.pipelineStage, Stage.deploymentStage],
                        sourceProduced := some srcRef, strategyProduced := some strategyRef,
                        pipelineArgs := some (srcRef.name, strategyRef'.base, strategyRef', srcRef),
                        servicesInput := none, written := none, strategyTrace := tr }
                  | Except.ok pipeline' =>
                      match genv.objects pipeline' with
                      | Except.error e =>
                          { outcome := Outcome.err e,
                            stages := [Stage.sourceStage, Stage.strategyStage,
                                       Stage.pipelineStage, Stage.deploymentStage,
                                       Stage.objectsStage],
                            sourceProduced := some srcRef, strategyProduced := some strategyRef,
                            pipelineArgs := some (srcRef.name, strategyRef'.base, strategyRef', srcRef),
                            servicesInput := none, written := none, strategyTrace := tr }
                      | Except.ok objs =>
                          let objs' := genv.addServices objs
                          match genv.encode objs' with
                          | Except.error e =>
                              { outcome := Outcome.err e,
                                stages := [Stage.sourceStage, Stage.strategyStage,
                                           Stage.pipelineStage, Stage.deploymentStage,
                                           Stage.objectsStage, Stage.encodeStage],
                                sourceProduced := some srcRef, strategyProduced := some strategyRef,
                                pipelineArgs := some (srcRef.name, strategyRef'.base, strategyRef', srcRef),
                                servicesInput := some objs, written := none, strategyTrace := tr }
                          | Except.ok output =>
                              { outcome := Outcome.ok,
                                stages := [Stage.sourceStage, Stage.strategyStage,
                                           Stage.pipelineStage, Stage.deploymentStage,
                                           Stage.objectsStage, Stage.encodeStage,
                                           Stage.writeStage],
                                sourceProduced := some srcRef, strategyProduced := some strategyRef,
                                pipelineArgs := some (srcRef.name, strategyRef'.base, strategyRef', srcRef),
                                servicesInput := some objs, written := some output,
                                strategyTrace := tr }

/-! ## Sample values used by witness theorems -/

/-- A concrete resolved image with full metadata. -/
def sampleImage : ImageRef :=
  { name := "ruby", nspace := "", registry := "docker.io", tag := "latest",
    info := some { config := some { exposedPorts := ["8080"] } } }

/-- A concrete resolved image whose `Info` pointer is nil. -/
def sampleImageNoInfo : ImageRef :=
  { name := "ruby", nspace := "", registry := "docker.io", tag := "latest",
    info := none }

/-- Concrete backends: only the registry finds `sampleImage`. -/
def sampleBackends : Backends :=
  { dockerLookup := fun _ _ => ResolveOutcome.noMatch,
    imageStreamLookup := fun _ _ _ => ResolveOutcome.noMatch,
    registryLookup := fun _ => ResolveOutcome.found sampleImage }

/-- A concrete detected source reference. -/
def sampleSourceRef : SourceRef :=
  { name := "app", url := "", ref := "", contextDir := "" }

/-- A concrete strategy environment: no Dockerfile, a ruby language match. -/
def sampleStratEnv : StratEnv :=
  { snapshot := { hasDockerfile := false, languageBuilder := some "ruby" },
    dockerBase := fun _ => some sampleImage }

/-- A resolver that always finds `sampleImage`. -/
def sampleResolver : String → Except GenError ImageRef :=
  fun _ => Except.ok sampleImage

/-- A resolver that always finds `sampleImageNoInfo`. -/
def sampleResolverNoInfo : String → Except GenError ImageRef :=
  fun _ => Except.ok sampleImageNoInfo

/-- Concrete collaborators for `generateApp` in which every stage succeeds. -/
def sampleGenEnv : GenEnv :=
  { fromGitURL := fun _ => Except.ok sampleSourceRef,
    fromDirectory := fun _ => Except.ok sampleSourceRef,
    newBuildPipeline := fun n b s sr =>
      Except.ok { name := n, source := sr, strategy := s,
                  needsDeploy := b.isSome, env := [] },
    needsDeployment := fun p e => Except.ok { p with env := e },
    objects := fun _ => Except.ok [{ kind := "BuildConfig", name := "app" }],
    addServices := fun objs => objs,
    encode := fun _ => Except.ok "encoded" }

/-- Concrete input: STI build forced by a builder image, port override 9090. -/
def sampleInput : Params :=
  { name := "", sourceDir := "dir", sourceRef := "", sourceURL := "",
    dockerContext := "", builderImage := "ruby", port := "9090", env := [] }

/-! ## Claims -/

/-- C1 (code bug). The entry point (`NewCmdGenerate`'s `Run`,
generate.go:88-120) is supposed to include each of the docker and image-stream
resolvers iff its own backend was configured.  The first conjunct evaluates the
entry-point client setup at an input where the OpenShift client is configured
(`f.Clients` succeeds) but `dockerHelper.GetClient` fails: because
generate.go:94 assigns `osClient = nil` in the docker error branch, the
resulting chain contains no image-stream resolver.  The second conjunct shows
the chain `newImageResolver` itself would build from the actually-configured
clients, which does contain it. -/
theorem c1_docker_failure_drops_image_stream :
    entryPointResolver { clientsResult := (some ⟨1⟩, false),
                         dockerResult := (none, true),
                         defaultNamespaceResult := ("proj", false) }
      = [⟨ResolverKind.dockerRegistry, 0⟩] ∧
    newImageResolver "proj" (some ⟨1⟩) none
      = [⟨ResolverKind.imageStream ⟨1⟩ ["proj", "default"], 0⟩,
         ⟨ResolverKind.dockerRegistry, 0⟩] := by
  exact ⟨rfl, rfl⟩

/-- C3. The image resolver chain resolves by pure first-match in insertion
order: a match by the head resolver short-circuits the rest (one invocation
total), a transient backend failure is treated as no-match and iteration
continues, any successful result is a resolver's match returned verbatim,
resolution depends only on the resolver sequence and never on the weights, and
every resolver placed in the chain by `newImageResolver` carries weight 0.0. -/
theorem c3_chain_first_match_resolution (b : Backends) :
    (∀ wr rest name ref, wr.resolver.resolveWith b name = ResolveOutcome.found ref →
        chainResolve b (wr :: rest) name = Except.ok ref ∧
        chainInvoked b (wr :: rest) name = 1) ∧
    (∀ wr rest name, wr.resolver.resolveWith b name = ResolveOutcome.noMatch →
        chainResolve b (wr :: rest) name = chainResolve b rest name ∧
        chainInvoked b (wr :: rest) name = 1 + chainInvoked b rest name) ∧
    (∀ wr rest name, wr.resolver.resolveWith b name = ResolveOutcome.transient →
        chainResolve b (wr :: rest) name = chainResolve b rest name ∧
        chainInvoked b (wr :: rest) name = 1 + chainInvoked b rest name) ∧
    (∀ chain name ref, chainResolve b chain name = Except.ok ref →
        ∃ wr, wr ∈ chain ∧ wr.resolver.resolveWith b name = ResolveOutcome.found ref) ∧
    (∀ c₁ c₂ name, c₁.map WeightedResolver.resolver = c₂.map WeightedResolver.resolver →
        chainResolve b c₁ name = chainResolve b c₂ name) ∧
    (∀ nspace osc dcl wr, wr ∈ newImageResolver nspace osc dcl → wr.weight = 0) := by
  refine ⟨?_, ?_, ?_, ?_, ?_, ?_⟩
  · intro wr rest name ref h
    simp [chainResolve, chainInvoked, h]
  · intro wr rest name h
    simp [chainResolve, chainInvoked, h]
  · intro wr rest name h
    simp [chainResolve, chainInvoked, h]
  · intro chain name ref h
    induction chain with
    | nil => simp [chainResolve] at h
    | cons wr rest ih =>
        unfold chainResolve at h
        cases hw : wr.resolver.resolveWith b name with
        | found r =>
            rw [hw] at h
            simp at h
            exact ⟨wr, List.mem_cons_self _ _, by rw [hw, h]⟩
        | noMatch =>
            rw [hw] at h
            obtain ⟨wr', hmem, hfound⟩ := ih h
            exact ⟨wr', List.mem_cons_of_mem _ hmem, hfound⟩
        | transient =>
            rw [hw] at h
            obtain ⟨wr', hmem, hfound⟩ := ih h
            exact ⟨wr', List.mem_cons_of_mem _ hmem, hfound⟩
  · intro c₁ c₂ name h
    induction c₁ generalizing c₂ with
    | nil =>
        cases c₂ with
        | nil => rfl
        | cons _ _ => simp at h
    | cons wr rest ih =>
        cases c₂ with
        | nil => simp at h
        | cons wr' rest' =>
            simp at h
            obtain ⟨hhead, htail⟩ := h
            unfold chainResolve
            rw [hhead]
            cases wr'.resolver.resolveWith b name with
            | found r => rfl
            | noMatch => exact ih rest' htail
            | transient => exact ih rest' htail
  · intro nspace osc dcl wr hw
    cases osc <;> cases dcl <;> by_cases h : 0 < nspace.length <;>
      simp [newImageResolver, h] at hw <;>
      rcases hw with rfl | rfl | rfl | rfl <;> rfl

/-- Witness for C3: on a one-element chain whose registry backend matches,
resolution returns that match with exactly one invocation. -/
theorem c3_witness :
    chainResolve sampleBackends [⟨ResolverKind.dockerRegistry, 0⟩] "ruby"
        = Except.ok sampleImage ∧
    chainInvoked sampleBackends [⟨ResolverKind.dockerRegistry, 0⟩] "ruby" = 1 :=
  (c3_chain_first_match_resolution sampleBackends).1
    ⟨ResolverKind.dockerRegistry, 0⟩ [] "ruby" sampleImage rfl

/-- C4. The namespace probe list handed to the image-stream resolver by
`newImageResolver` is always non-empty, equals `[nspace, "default"]` when the
caller namespace is non-empty and `["default"]` when it is empty; the default
namespace is never probed before a supplied namespace. -/
theorem c4_namespace_probe_list (nspace : String) (oc : OsClient)
    (dc : Option DockerClient) :
    ∃ nss, imageStreamNamespaces (newImageResolver nspace (some oc) dc) = some nss ∧
      nss ≠ [] ∧
      (0 < nspace.length → nss = [nspace, "default"]) ∧
      (nspace.length = 0 → nss = ["default"]) := by
  refine ⟨if 0 < nspace.length then [nspace, "default"] else ["default"], ?_, ?_, ?_, ?_⟩
  · cases dc <;> by_cases h : 0 < nspace.length <;>
      simp [newImageResolver, imageStreamNamespaces, h]
  · by_cases h : 0 < nspace.length <;> simp [h]
  · intro h; simp [h]
  · intro h; simp [h]

/-- Witness for C4: with caller namespace `"proj"`, the probe list is exactly
`["proj", "default"]`. -/
theorem c4_witness :
    imageStreamNamespaces (newImageResolver "proj" (some ⟨1⟩) none)
      = some ["proj", "default"] := by
  obtain ⟨nss, h1, _, h3, _⟩ := c4_namespace_probe_list "proj" ⟨1⟩ none
  rw [h1, h3 (by decide)]

/-- C2. Build-strategy selection takes exactly one of three mutually
exclusive, collectively exhaustive paths, in precedence order: a supplied
docker context forces the Docker strategy and skips detection; otherwise a
supplied builder image forces the STI strategy and skips detection; otherwise
detection runs over the source (exactly one detector-chain run).  Every
successful result carries exactly one strategy kind. -/
theorem c2_strategy_dispatch (senv : StratEnv) (srcRef : SourceRef)
    (dockerContext builderImage : String)
    (resolver : String → Except GenError ImageRef) :
    (0 < dockerContext.length →
       generateBuildStrategyRef senv srcRef dockerContext builderImage resolver
         = (fromSourceRefAndDockerContext senv dockerContext, ⟨[], 0⟩) ∧
       (∀ s, (generateBuildStrategyRef senv srcRef dockerContext builderImage resolver).1
           = Except.ok s → s.kind = StrategyKind.docker)) ∧
    (dockerContext.length = 0 → 0 < builderImage.length →
       (generateBuildStrategyRef senv srcRef dockerContext builderImage resolver).2.detectorRuns = 0 ∧
       (∀ s, (generateBuildStrategyRef senv srcRef dockerContext builderImage resolver).1
           = Except.ok s → s.kind = StrategyKind.sti)) ∧
    (dockerContext.length = 0 → builderImage.length = 0 →
       (generateBuildStrategyRef senv srcRef dockerContext builderImage resolver).2.detectorRuns = 1) ∧
    (∀ s, (generateBuildStrategyRef senv srcRef dockerContext builderImage resolver).1
        = Except.ok s →
       s.kind = StrategyKind.docker ∨ s.kind = StrategyKind.sti) := by
  refine ⟨?_, ?_, ?_, ?_⟩
  · intro hdc
    constructor
    · simp [generateBuildStrategyRef, hdc]
    · intro s hs
      simp [generateBuildStrategyRef, hdc, fromSourceRefAndDockerContext] at hs
      rw [← hs]
  · intro hdc hbi
    have hdc' : ¬ 0 < dockerContext.length := by omega
    constructor
    · unfold generateBuildStrategyRef
      rw [if_neg hdc', if_pos hbi]
      cases fromNameAndResolver resolver builderImage <;> rfl
    · intro s hs
      unfold generateBuildStrategyRef at hs
      rw [if_neg hdc', if_pos hbi] at hs
      cases h : fromNameAndResolver resolver builderImage with
      | error e => rw [h] at hs; simp at hs
      | ok ref =>
          rw [h] at hs
          simp [fromSTIBuilderImage] at hs
          rw [← hs]
  · intro hdc hbi
    have hdc' : ¬ 0 < dockerContext.length := by omega
    have hbi' : ¬ 0 < builderImage.length := by omega
    unfold generateBuildStrategyRef
    rw [if_neg hdc', if_neg hbi']
    unfold fromSourceRef
    by_cases hdf : senv.snapshot.hasDockerfile
    · simp [hdf]
    · simp [hdf]
      cases senv.snapshot.languageBuilder with
      | none => rfl
      | some builderName => cases h : resolver builderName <;> simp [h]
  · intro s hs
    cases s with
    | mk kind base contextDir => cases kind <;> simp

/-- Witness for C2: with docker context `"ctx"`, the Docker path is taken with
no detector run. -/
theorem c2_witness :
    generateBuildStrategyRef sampleStratEnv sampleSourceRef "ctx" "ruby" sampleResolver
      = (fromSourceRefAndDockerContext sampleStratEnv "ctx", ⟨[], 0⟩) :=
  ((c2_strategy_dispatch sampleStratEnv sampleSourceRef "ctx" "ruby" sampleResolver).1
    (by decide)).1

/-- C5. With a builder image supplied and no docker context, the detector
chain is never run and the image resolver chain is invoked exactly once, with
exactly the builder-image name. -/
theorem c5_builder_image_resolver_once (senv : StratEnv) (srcRef : SourceRef)
    (builderImage : String) (resolver : String → Except GenError ImageRef)
    (h : 0 < builderImage.length) :
    (generateBuildStrategyRef senv srcRef "" builderImage resolver).2.detectorRuns = 0 ∧
    (generateBuildStrategyRef senv srcRef "" builderImage resolver).2.resolverCalls
      = [builderImage] := by
  unfold generateBuildStrategyRef
  rw [if_neg (by decide), if_pos h]
  cases fromNameAndResolver resolver builderImage <;> exact ⟨rfl, rfl⟩

/-- Witness for C5: builder image `"ruby"` yields zero detector runs and the
single resolver call `["ruby"]`. -/
theorem c5_witness :
    0 < "ruby".length ∧
    (generateBuildStrategyRef sampleStratEnv sampleSourceRef "" "ruby"
        sampleResolver).2.resolverCalls = ["ruby"] :=
  ⟨by decide,
   (c5_builder_image_resolver_once sampleStratEnv sampleSourceRef "ruby"
      sampleResolver (by decide)).2⟩

/-- C9. Caller-supplied `ref` and `name` overrides take precedence over
detected values: any source reference produced by `generateSourceRef` carries
the supplied non-empty `ref` and the supplied non-empty `name`, regardless of
what the URL/directory detection returned. -/
theorem c9_source_overrides (genv : GenEnv) (url dir ref name : String)
    (srcRef : SourceRef)
    (h : generateSourceRef genv url dir ref name = Except.ok srcRef) :
    (0 < ref.length → srcRef.ref = ref) ∧
    (0 < name.length → srcRef.name = name) := by
  unfold generateSourceRef at h
  cases hb : (if 0 < url.length then genv.fromGitURL url else genv.fromDirectory dir) with
  | error e => rw [hb] at h; simp at h
  | ok r =>
      rw [hb] at h
      simp at h
      by_cases hr : 0 < ref.length <;> by_cases hn : 0 < name.length <;>
        simp [hr, hn] at h <;> rw [← h] <;> simp [hr, hn]

/-- Witness for C9: detection returns name `"app"` and empty ref, but the
overrides `ref := "v2"`, `name := "myapp"` win. -/
theorem c9_witness :
    generateSourceRef sampleGenEnv "" "dir" "v2" "myapp"
      = Except.ok { name := "myapp", url := "", ref := "v2", contextDir := "" } ∧
    ({ name := "myapp", url := "", ref := "v2", contextDir := "" } : SourceRef).ref
      = "v2" ∧
    ({ name := "myapp", url := "", ref := "v2", contextDir := "" } : SourceRef).name
      = "myapp" := by
  have h := c9_source_overrides sampleGenEnv "" "dir" "v2" "myapp"
    { name := "myapp", url := "", ref := "v2", contextDir := "" } rfl
  exact ⟨rfl, h.1 (by decide), h.2 (by decide)⟩

/-- A successful port override leaves the strategy's base image with exactly
the one overridden port. -/
theorem applyPortOverride_some_ports (s s' : BuildStrategyRef) (p : String)
    (h : applyPortOverride s p = some s') :
    ∃ bb i c, s'.base = some bb ∧ bb.info = some i ∧ i.config = some c ∧
      c.exposedPorts = [p] := by
  unfold applyPortOverride at h
  cases hb : s.base with
  | none => simp [hb] at h
  | some bb =>
      simp only [hb] at h
      cases hi : bb.info with
      | none => simp [hi] at h
      | some ii =>
          simp only [hi] at h
          cases hc : ii.config with
          | none => simp [hc] at h
          | some cc =>
              simp only [hc, Option.some.injEq] at h
              rw [← h]
              exact ⟨_, _, _, rfl, rfl, rfl, rfl⟩

/-- The port override is undefined (a nil dereference) when the base image or
its metadata is absent. -/
theorem applyPortOverride_missing_info (s : BuildStrategyRef) (p : String)
    (h : s.base = none ∨ ∃ bb, s.base = some bb ∧ bb.info = none) :
    applyPortOverride s p = none := by
  rcases h with h | ⟨bb, hb, hi⟩ <;> simp [applyPortOverride, *]

/-- C6. With a non-empty port override, the strategy handed to pipeline
assembly (and hence to everything after it, service synthesis included)
carries a base image whose exposed-port set is exactly the one overridden
port; the base-image argument of `NewBuildPipeline` is that same base. -/
theorem c6_port_override_before_assembly (genv : GenEnv) (senv : StratEnv)
    (input : Params) (resolver : String → Except GenError ImageRef)
    (hp : 0 < input.port.length) :
    ∀ n b s sr,
      (generateApp genv senv input resolver).pipelineArgs = some (n, b, s, sr) →
      b = s.base ∧
      ∃ bb i c, s.base = some bb ∧ bb.info = some i ∧ i.config = some c ∧
        c.exposedPorts = [input.port] := by
  intro n b s sr h
  unfold generateApp at h
  cases h1 : generateSourceRef genv input.sourceURL input.sourceDir
      input.sourceRef input.name with
  | error e => simp [h1] at h
  | ok srcRef =>
      simp only [h1] at h
      cases h2 : (generateBuildStrategyRef senv srcRef input.dockerContext
          input.builderImage resolver).1 with
      | error e => simp [h2] at h
      | ok strategyRef =>
          simp only [h2] at h
          cases hport : (if 0 < input.port.length
              then applyPortOverride strategyRef input.port
              else some strategyRef) with
          | none => simp [hport] at h
          | some strategyRef' =>
              simp only [hport] at h
              rw [if_pos hp] at hport
              have hps := applyPortOverride_some_ports _ _ _ hport
              cases h4 : genv.newBuildPipeline srcRef.name strategyRef'.base
                  strategyRef' srcRef with
              | error e =>
                  simp only [h4] at h
                  simp at h
                  obtain ⟨-, hb, hs, -⟩ := h
                  subst hs
                  exact ⟨hb.symm, hps⟩
              | ok pipeline =>
                  simp only [h4] at h
                  cases h5 : genv.needsDeployment pipeline input.env with
                  | error e =>
                      simp only [h5] at h
                      simp at h
                      obtain ⟨-, hb, hs, -⟩ := h
                      subst hs
                      exact ⟨hb.symm, hps⟩
                  | ok pipeline' =>
                      simp only [h5] at h
                      cases h6 : genv.objects pipeline' with
                      | error e =>
                          simp only [h6] at h
                          simp at h
                          obtain ⟨-, hb, hs, -⟩ := h
                          subst hs
                          exact ⟨hb.symm, hps⟩
                      | ok objs =>
                          simp only [h6] at h
                          cases h7 : genv.encode (genv.addServices objs) with
                          | error e =>
                              simp only [h7] at h
                              simp at h
                              obtain ⟨-, hb, hs, -⟩ := h
                              subst hs
                              exact ⟨hb.symm, hps⟩
                          | ok output =>
                              simp only [h7] at h
                              simp at h
                              obtain ⟨-, hb, hs, -⟩ := h
                              subst hs
                              exact ⟨hb.symm, hps⟩

/-- The strategy produced for `sampleInput` before the port override. -/
def sampleStrategySti : BuildStrategyRef :=
  { kind := StrategyKind.sti, base := some sampleImage, contextDir := "" }

/-- Image `sampleImage` after the port override `"9090"`. -/
def sampleImagePorted : ImageRef :=
  { sampleImage with info := some { config := some { exposedPorts := ["9090"] } } }

/-- Strategy `sampleStrategySti` after the port override `"9090"`. -/
def sampleStrategyPorted : BuildStrategyRef :=
  { kind := StrategyKind.sti, base := some sampleImagePorted, contextDir := "" }

/-- Witness for C6: the concrete run with port override `"9090"` hands
pipeline assembly a strategy whose base image exposes exactly `"9090"`. -/
theorem c6_witness :
    (generateApp sampleGenEnv sampleStratEnv sampleInput sampleResolver).pipelineArgs
        = some ("app", some sampleImagePorted, sampleStrategyPorted, sampleSourceRef) ∧
    ∃ bb i c, sampleStrategyPorted.base = some bb ∧ bb.info = some i ∧
      i.config = some c ∧ c.exposedPorts = [sampleInput.port] :=
  ⟨rfl,
   (c6_port_override_before_assembly sampleGenEnv sampleStratEnv sampleInput
      sampleResolver (by decide) "app" (some sampleImagePorted)
      sampleStrategyPorted sampleSourceRef rfl).2⟩

/-- C7 (counterexample). The claim says no pipeline stage after strategy
generation modifies the fields of a produced `ImageRef`/`BuildStrategyRef`.
In the concrete run with port override `"9090"`, strategy generation produces
`sampleStrategySti` (base exposes `"8080"`), yet pipeline assembly receives
`sampleStrategyPorted` (base exposes `"9090"`) — the produced value's
exposed-port field was overwritten in place. -/
theorem c7_counterexample :
    (generateApp sampleGenEnv sampleStratEnv sampleInput sampleResolver).strategyProduced
        = some sampleStrategySti ∧
    (generateApp sampleGenEnv sampleStratEnv sampleInput sampleResolver).pipelineArgs
        = some ("app", some sampleImagePorted, sampleStrategyPorted, sampleSourceRef) ∧
    sampleStrategyPorted ≠ sampleStrategySti :=
  ⟨rfl, rfl, by decide⟩

/-- C7 (amended). References are immutable after production except for the
one mutation generate.go performs: with an empty port override, pipeline
assembly receives exactly the produced source and strategy references; with a
non-empty port override, the received strategy is the produced one with
precisely its base image's exposed-port set replaced (the `applyPortOverride`
rewrite) and nothing else changed. -/
theorem c7_immutability_amended (genv : GenEnv) (senv : StratEnv)
    (input : Params) (resolver : String → Except GenError ImageRef) :
    ∀ sr0 s0 n b s sr,
      (generateApp genv senv input resolver).sourceProduced = some sr0 →
      (generateApp genv senv input resolver).strategyProduced = some s0 →
      (generateApp genv senv input resolver).pipelineArgs = some (n, b, s, sr) →
      sr = sr0 ∧ b = s.base ∧
      (input.port.length = 0 → s = s0) ∧
      (0 < input.port.length → applyPortOverride s0 input.port = some s) := by
  intro sr0 s0 n b s sr hsrc hstrat h
  unfold generateApp at hsrc hstrat h
  cases h1 : generateSourceRef genv input.sourceURL input.sourceDir
      input.sourceRef input.name with
  | error e => simp [h1] at h
  | ok srcRef =>
      simp only [h1] at hsrc hstrat h
      cases h2 : (generateBuildStrategyRef senv srcRef input.dockerContext
          input.builderImage resolver).1 with
      | error e => simp [h2] at h
      | ok strategyRef =>
          simp only [h2] at hsrc hstrat h
          cases hport : (if 0 < input.port.length
              then applyPortOverride strategyRef input.port
              else some strategyRef) with
          | none => simp [hport] at h
          | some strategyRef' =>
              simp only [hport] at hsrc hstrat h
              have hcore : sr = srcRef ∧ b = strategyRef'.base ∧ s = strategyRef' ∧
                  sr0 = srcRef ∧ s0 = strategyRef := by
                cases h4 : genv.newBuildPipeline srcRef.name strategyRef'.base
                    strategyRef' srcRef with
                | error e =>
                    simp only [h4] at hsrc hstrat h
                    simp at hsrc hstrat h
                    obtain ⟨-, hb, hs, hsr⟩ := h
                    exact ⟨hsr.symm, hb.symm, hs.symm, hsrc.symm, hstrat.symm⟩
                | ok pipeline =>
                    simp only [h4] at hsrc hstrat h
                    cases h5 : genv.needsDeployment pipeline input.env with
                    | error e =>
                        simp only [h5] at hsrc hstrat h
                        simp at hsrc hstrat h
                        obtain ⟨-, hb, hs, hsr⟩ := h
                        exact ⟨hsr.symm, hb.symm, hs.symm, hsrc.symm, hstrat.symm⟩
                    | ok pipeline' =>
                        simp only [h5] at hsrc hstrat h
                        cases h6 : genv.objects pipeline' with
                        | error e =>
                            simp only [h6] at hsrc hstrat h
                            simp at hsrc hstrat h
                            obtain ⟨-, hb, hs, hsr⟩ := h
                            exact ⟨hsr.symm, hb.symm, hs.symm, hsrc.symm, hstrat.symm⟩
                        | ok objs =>
                            simp only [h6] at hsrc hstrat h
                            cases h7 : genv.encode (genv.addServices objs) with
                            | error e =>
                                simp only [h7] at hsrc hstrat h
                                simp at hsrc hstrat h
                                obtain ⟨-, hb, hs, hsr⟩ := h
                                exact ⟨hsr.symm, hb.symm, hs.symm, hsrc.symm, hstrat.symm⟩
                            | ok output =>
                                simp only [h7] at hsrc hstrat h
                                simp at hsrc hstrat h
                                obtain ⟨-, hb, hs, hsr⟩ := h
                                exact ⟨hsr.symm, hb.symm, hs.symm, hsrc.symm, hstrat.symm⟩
              obtain ⟨hsr, hb, hs, hsr0, hs0⟩ := hcore
              subst hsr hb hs hsr0 hs0
              refine ⟨rfl, rfl, ?_, ?_⟩
              · intro hz
                rw [if_neg (by omega)] at hport
                exact (Option.some.injEq _ _ ▸ hport).symm ▸ rfl
              · intro hpos
                rw [if_pos hpos] at hport
                exact hport

/-- Witness for C7's amended theorem: in the concrete run with port override
`"9090"`, the strategy received by pipeline assembly is exactly the produced
strategy rewritten by `applyPortOverride`. -/
theorem c7_amended_witness :
    applyPortOverride sampleStrategySti sampleInput.port = some sampleStrategyPorted :=
  (c7_immutability_amended sampleGenEnv sampleStratEnv sampleInput sampleResolver
      sampleSourceRef sampleStrategySti "app" (some sampleImagePorted)
      sampleStrategyPorted sampleSourceRef rfl rfl rfl).2.2.2 (by decide)

/-- C8. Error propagation in `generateApp`: whenever the run ends in an
error, nothing was written and the write stage never ran; and for each of the
six fallible stages (source-ref generation, strategy generation, pipeline
construction, deployment computation, object emission, encoding), if all
earlier stages succeed and that stage returns an error, `generateApp` returns
that error verbatim, the executed stages stop exactly there, and nothing is
written. -/
theorem c8_error_propagation (genv : GenEnv) (senv : StratEnv) (input : Params)
    (resolver : String → Except GenError ImageRef) :
    (∀ e, (generateApp genv senv input resolver).outcome = Outcome.err e →
        (generateApp genv senv input resolver).written = none ∧
        Stage.writeStage ∉ (generateApp genv senv input resolver).stages) ∧
    (∀ e, generateSourceRef genv input.sourceURL input.sourceDir
          input.sourceRef input.name = Except.error e →
        (generateApp genv senv input resolver).outcome = Outcome.err e ∧
        (generateApp genv senv input resolver).stages = [Stage.sourceStage] ∧
        (generateApp genv senv input resolver).written = none) ∧
    (∀ srcRef e, generateSourceRef genv input.sourceURL input.sourceDir
          input.sourceRef input.name = Except.ok srcRef →
        (generateBuildStrategyRef senv srcRef input.dockerContext
          input.builderImage resolver).1 = Except.error e →
        (generateApp genv senv input resolver).outcome = Outcome.err e ∧
        (generateApp genv senv input resolver).stages
          = [Stage.sourceStage, Stage.strategyStage] ∧
        (generateApp genv senv input resolver).written = none) ∧
    (∀ srcRef strategyRef strategyRef' e,
        generateSourceRef genv input.sourceURL input.sourceDir
          input.sourceRef input.name = Except.ok srcRef →
        (generateBuildStrategyRef senv srcRef input.dockerContext
          input.builderImage resolver).1 = Except.ok strategyRef →
        (if 0 < input.port.length then applyPortOverride strategyRef input.port
         else some strategyRef) = some strategyRef' →
        genv.newBuildPipeline srcRef.name strategyRef'.base strategyRef' srcRef
          = Except.error e →
        (generateApp genv senv input resolver).outcome = Outcome.err e ∧
        (generateApp genv senv input resolver).stages
          = [Stage.sourceStage, Stage.strategyStage, Stage.pipelineStage] ∧
        (generateApp genv senv input resolver).written = none) ∧
    (∀ srcRef strategyRef strategyRef' p e,
        generateSourceRef genv input.sourceURL input.sourceDir
          input.sourceRef input.name = Except.ok srcRef →
        (generateBuildStrategyRef senv srcRef input.dockerContext
          input.builderImage resolver).1 = Except.ok strategyRef →
        (if 0 < input.port.length then applyPortOverride strategyRef input.port
         else some strategyRef) = some strategyRef' →
        genv.newBuildPipeline srcRef.name strategyRef'.base strategyRef' srcRef
          = Except.ok p →
        genv.needsDeployment p input.env = Except.error e →
        (generateApp genv senv input resolver).outcome = Outcome.err e ∧
        (generateApp genv senv input resolver).stages
          = [Stage.sourceStage, Stage.strategyStage, Stage.pipelineStage,
             Stage.deploymentStage] ∧
        (generateApp genv senv input resolver).written = none) ∧
    (∀ srcRef strategyRef strategyRef' p p' e,
        generateSourceRef genv input.sourceURL input.sourceDir
          input.sourceRef input.name = Except.ok srcRef →
        (generateBuildStrategyRef senv srcRef input.dockerContext
          input.builderImage resolver).1 = Except.ok strategyRef →
        (if 0 < input.port.length then applyPortOverride strategyRef input.port
         else some strategyRef) = some strategyRef' →
        genv.newBuildPipeline srcRef.name strategyRef'.base strategyRef' srcRef
          = Except.ok p →
        genv.needsDeployment p input.env = Except.ok p' →
        genv.objects p' = Except.error e →
        (generateApp genv senv input resolver).outcome = Outcome.err e ∧
        (generateApp genv senv input resolver).stages
          = [Stage.sourceStage, Stage.strategyStage, Stage.pipelineStage,
             Stage.deploymentStage, Stage.objectsStage] ∧
        (generateApp genv senv input resolver).written = none) ∧
    (∀ srcRef strategyRef strategyRef' p p' objs e,
        generateSourceRef genv input.sourceURL input.sourceDir
          input.sourceRef input.name = Except.ok srcRef →
        (generateBuildStrategyRef senv srcRef input.dockerContext
          input.builderImage resolver).1 = Except.ok strategyRef →
        (if 0 < input.port.length then applyPortOverride strategyRef input.port
         else some strategyRef) = some strategyRef' →
        genv.newBuildPipeline srcRef.name strategyRef'.base strategyRef' srcRef
          = Except.ok p →
        genv.needsDeployment p input.env = Except.ok p' →
        genv.objects p' = Except.ok objs →
        genv.encode (genv.addServices objs) = Except.error e →
        (generateApp genv senv input resolver).outcome = Outcome.err e ∧
        (generateApp genv senv input resolver).stages
          = [Stage.sourceStage, Stage.strategyStage, Stage.pipelineStage,
             Stage.deploymentStage, Stage.objectsStage, Stage.encodeStage] ∧
        (generateApp genv senv input resolver).written = none) := by
  refine ⟨?_, ?_, ?_, ?_, ?_, ?_, ?_⟩
  · intro e
    unfold generateApp
    cases h1 : generateSourceRef genv input.sourceURL input.sourceDir
        input.sourceRef input.name with
    | error e' => simp
    | ok srcRef =>
        cases h2 : (generateBuildStrategyRef senv srcRef input.dockerContext
            input.builderImage resolver).1 with
        | error e' => simp [h2]
        | ok strategyRef =>
            cases hport : (if 0 < input.port.length
                then applyPortOverride strategyRef input.port
                else some strategyRef) with
            | none => simp [h2, hport]
            | some strategyRef' =>
                cases h4 : genv.newBuildPipeline srcRef.name strategyRef'.base
                    strategyRef' srcRef with
                | error e' => simp [h2, hport, h4]
                | ok pipeline =>
                    cases h5 : genv.needsDeployment pipeline input.env with
                    | error e' => simp [h2, hport, h4, h5]
                    | ok pipeline' =>
                        cases h6 : genv.objects pipeline' with
                        | error e' => simp [h2, hport, h4, h5, h6]
                        | ok objs =>
                            cases h7 : genv.encode (genv.addServices objs) with
                            | error e' => simp [h2, hport, h4, h5, h6, h7]
                            | ok output => simp [h2, hport, h4, h5, h6, h7]
  · intro e h1
    simp [generateApp, h1]
  · intro srcRef e h1 h2
    simp [generateApp, h1, h2]
  · intro srcRef strategyRef strategyRef' e h1 h2 h3 h4
    simp [generateApp, h1, h2, h3, h4]
  · intro srcRef strategyRef strategyRef' p e h1 h2 h3 h4 h5
    simp [generateApp, h1, h2, h3, h4, h5]
  · intro srcRef strategyRef strategyRef' p p' e h1 h2 h3 h4 h5 h6
    simp [generateApp, h1, h2, h3, h4, h5, h6]
  · intro srcRef strategyRef strategyRef' p p' objs e h1 h2 h3 h4 h5 h6 h7
    simp [generateApp, h1, h2, h3, h4, h5, h6, h7]

/-- Concrete collaborators in which only the encoder fails. -/
def sampleGenEnvEncodeErr : GenEnv :=
  { sampleGenEnv with encode := fun _ => Except.error (GenError.encoding "boom") }

/-- Input `sampleInput` without the port override. -/
def sampleInputNoPort : Params := { sampleInput with port := "" }

/-- The pipeline assembled in the concrete all-stages-succeed run. -/
def samplePipeline : Pipeline :=
  { name := "app", source := sampleSourceRef, strategy := sampleStrategySti,
    needsDeploy := true, env := [] }

/-- Witness for C8: with a failing encoder, the concrete run returns the
encoding error verbatim, stops after the encode stage, and writes nothing. -/
theorem c8_witness :
    (generateApp sampleGenEnvEncodeErr sampleStratEnv sampleInputNoPort
        sampleResolver).outcome = Outcome.err (GenError.encoding "boom") ∧
    (generateApp sampleGenEnvEncodeErr sampleStratEnv sampleInputNoPort
        sampleResolver).written = none := by
  have h := (c8_error_propagation sampleGenEnvEncodeErr sampleStratEnv
      sampleInputNoPort sampleResolver).2.2.2.2.2.2 sampleSourceRef
      sampleStrategySti sampleStrategySti samplePipeline samplePipeline
      [{ kind := "BuildConfig", name := "app" }] (GenError.encoding "boom")
      rfl rfl rfl rfl rfl rfl rfl
  exact ⟨h.1, h.2.2⟩

/-- C10. With a non-empty port override, the port-override assignment
dereferences the strategy's base image metadata unguarded: if strategy
generation produced a strategy whose base image is absent or carries no
metadata, the run ends in a nil-dereference panic and in particular not in an
error return — no error branch guards the dereference. -/
theorem c10_port_override_unguarded_deref (genv : GenEnv) (senv : StratEnv)
    (input : Params) (resolver : String → Except GenError ImageRef)
    (hp : 0 < input.port.length) :
    ∀ s, (generateApp genv senv input resolver).strategyProduced = some s →
      (s.base = none ∨ ∃ bb, s.base = some bb ∧ bb.info = none) →
      (generateApp genv senv input resolver).outcome = Outcome.panicked ∧
      ∀ e, (generateApp genv senv input resolver).outcome ≠ Outcome.err e := by
  intro s hs hmiss
  unfold generateApp at hs ⊢
  cases h1 : generateSourceRef genv input.sourceURL input.sourceDir
      input.sourceRef input.name with
  | error e => simp [h1] at hs
  | ok srcRef =>
      simp only [h1] at hs ⊢
      cases h2 : (generateBuildStrategyRef senv srcRef input.dockerContext
          input.builderImage resolver).1 with
      | error e => simp [h2] at hs
      | ok strategyRef =>
          simp only [h2] at hs ⊢
          have hnone : (if 0 < input.port.length
              then applyPortOverride strategyRef input.port
              else some strategyRef) = none := by
            rw [if_pos hp]
            have hss : strategyRef = s := by
              cases hport : (if 0 < input.port.length
                  then applyPortOverride strategyRef input.port
                  else some strategyRef) with
              | none =>
                  simp only [hport] at hs
                  simp at hs
                  exact hs
              | some strategyRef' =>
                  simp only [hport] at hs
                  cases h4 : genv.newBuildPipeline srcRef.name strategyRef'.base
                      strategyRef' srcRef with
                  | error e => simp only [h4] at hs; simp at hs; exact hs
                  | ok pipeline =>
                      simp only [h4] at hs
                      cases h5 : genv.needsDeployment pipeline input.env with
                      | error e => simp only [h5] at hs; simp at hs; exact hs
                      | ok pipeline' =>
                          simp only [h5] at hs
                          cases h6 : genv.objects pipeline' with
                          | error e => simp only [h6] at hs; simp at hs; exact hs
                          | ok objs =>
                              simp only [h6] at hs
                              cases h7 : genv.encode (genv.addServices objs) with
                              | error e =>
                                  simp only [h7] at hs; simp at hs; exact hs
                              | ok output =>
                                  simp only [h7] at hs; simp at hs; exact hs
            rw [hss]
            exact applyPortOverride_missing_info s input.port hmiss
          refine ⟨by simp [hnone], fun e hcon => ?_⟩
          simp [hnone] at hcon

/-- Witness for C10: a resolver returning an image with nil metadata plus port
override `"9090"` makes the concrete run end in a panic. -/
theorem c10_witness :
    0 < sampleInput.port.length ∧
    (generateApp sampleGenEnv sampleStratEnv sampleInput
        sampleResolverNoInfo).strategyProduced
      = some { kind := StrategyKind.sti, base := some sampleImageNoInfo,
               contextDir := "" } ∧
    (generateApp sampleGenEnv sampleStratEnv sampleInput
        sampleResolverNoInfo).outcome = Outcome.panicked :=
  ⟨by decide, rfl,
   (c10_port_override_unguarded_deref sampleGenEnv sampleStratEnv sampleInput
      sampleResolverNoInfo (by decide)
      { kind := StrategyKind.sti, base := some sampleImageNoInfo, contextDir := "" }
      rfl (Or.inr ⟨sampleImageNoInfo, rfl, rfl⟩)).1⟩

end Generate
